import Mathlib

/-!
Shallow embedding of `src/providers/azure.py` (AzureOpenAIProvider) and of the
small pieces of its base classes that it calls.  Python floats are modelled as
rationals (`Rat`); Python dictionaries are modelled as association lists in
insertion order; Python object identity of lazily constructed clients is
modelled by a construction counter carried in the provider state; raising an
exception is modelled by returning `Except.error` together with the provider
state as mutated up to the point of the raise.
-/

namespace AzureMCP

/-- The provider kind; only the Azure variant matters for this module. -/
inductive ProviderType
  | azure
deriving Repr, DecidableEq

/-- `AzureDeployment` dataclass (azure.py lines 16-25). -/
structure AzureDeployment where
  deployment_name : String
  api_version : String
  stream : Bool
  context_window : Int
  supports_extended_thinking : Bool
  fixed_temperature : Option Rat
deriving Repr, DecidableEq

/-- A value stored in a configuration dictionary entry.  The configuration
dictionaries of this module hold strings, booleans, integers and floats;
values are assumed well-typed for their key. -/
inductive CfgVal
  | s (v : String)
  | b (v : Bool)
  | i (v : Int)
  | r (v : Rat)
deriving Repr, DecidableEq

/-- A per-deployment configuration dictionary, in insertion order. -/
abbrev Cfg := List (String × CfgVal)

/-- Python `cfg.get(k)`: the value stored under `k`, if any. -/
def dictGetCfg (cfg : Cfg) (k : String) : Option CfgVal :=
  (cfg.find? (fun q => q.1 == k)).map (fun q => q.2)

/-- Python `cfg.get(k, d)` for a string-valued key. -/
def cfgGetStr (cfg : Cfg) (k : String) (d : String) : String :=
  match dictGetCfg cfg k with
  | some (.s v) => v
  | _ => d

/-- Python `cfg.get(k, d)` for a boolean-valued key. -/
def cfgGetBool (cfg : Cfg) (k : String) (d : Bool) : Bool :=
  match dictGetCfg cfg k with
  | some (.b v) => v
  | _ => d

/-- Python `cfg.get(k, d)` for an integer-valued key. -/
def cfgGetInt (cfg : Cfg) (k : String) (d : Int) : Int :=
  match dictGetCfg cfg k with
  | some (.i v) => v
  | _ => d

/-- Python `cfg.get(k)` for a float-valued key: `None` when absent. -/
def cfgGetRat (cfg : Cfg) (k : String) : Option Rat :=
  match dictGetCfg cfg k with
  | some (.r v) => some v
  | _ => none

/-- One lazily constructed Azure client (azure.py lines 67-71).  `obj_id` is
the value of the provider's construction counter at construction time and
models Python object identity. -/
structure Client where
  api_key : String
  azure_endpoint : String
  api_version : String
  obj_id : Nat
deriving Repr, DecidableEq

/-- The mutable state of an `AzureOpenAIProvider` instance: credentials and
endpoint stored by the base class, the deployment table built in `__init__`
(azure.py lines 39-49), and the client cache `_clients` (line 50) together
with the construction counter. -/
structure AzureOpenAIProvider where
  api_key : String
  endpoint_url : String
  deployments : List (String × AzureDeployment)
  clients : List (String × Client)
  next_obj_id : Nat
deriving Repr, DecidableEq

/-- Building one `AzureDeployment` record from its configuration entry
(azure.py lines 42-49).  Note the defaults: `deployment_name` defaults to the
logical name, `api_version` to the provider default, `stream` to `True`,
`context_window` to `200_000`. -/
def buildDeployment (default_api_version : String) (name : String) (cfg : Cfg) :
    AzureDeployment :=
  { deployment_name := cfgGetStr cfg "deployment_name" name
    api_version := cfgGetStr cfg "api_version" default_api_version
    stream := cfgGetBool cfg "stream" true
    context_window := cfgGetInt cfg "context_window" 200000
    supports_extended_thinking := cfgGetBool cfg "supports_extended_thinking" false
    fixed_temperature := cfgGetRat cfg "fixed_temperature" }

/-- `AzureOpenAIProvider.__init__` (azure.py lines 31-50). -/
def azureInit (api_key : String) (endpoint_url : String)
    (deployments : List (String × Cfg)) (default_api_version : String) :
    AzureOpenAIProvider :=
  { api_key := api_key
    endpoint_url := endpoint_url
    deployments := deployments.map (fun q => (q.1, buildDeployment default_api_version q.1 q.2))
    clients := []
    next_obj_id := 0 }

/-- The error taxonomy of the module, named as in the specification:
`UnsupportedModel` is the `ValueError("Unsupported Azure deployment: ...")`,
`InvalidParameter` the validation error of the base class,
`DependencyMissing` the `ImportError` for a missing SDK, and
`ProviderCallFailed` the `RuntimeError("Azure OpenAI API error for model
{model_name}: {e}")` that wraps a cause. -/
inductive ProviderError
  | UnsupportedModel (model : String)
  | InvalidParameter
  | DependencyMissing
  | ProviderCallFailed (model : String) (cause : String)
deriving Repr, DecidableEq

/-- Python `self.deployments.get(model_name)`. -/
def lookupDeployment (ds : List (String × AzureDeployment)) (name : String) :
    Option AzureDeployment :=
  (ds.find? (fun q => q.1 == name)).map (fun q => q.2)

/-- Python `self._clients` lookup by api version. -/
def lookupClient (cs : List (String × Client)) (api_version : String) : Option Client :=
  (cs.find? (fun q => q.1 == api_version)).map (fun q => q.2)

/-- `validate_model_name` (azure.py lines 56-58 and 198-199). -/
def validate_model_name (p : AzureOpenAIProvider) (model_name : String) : Bool :=
  (lookupDeployment p.deployments model_name).isSome

/-- `supports_thinking_mode` (azure.py lines 201-203). -/
def supports_thinking_mode (p : AzureOpenAIProvider) (model_name : String) : Bool :=
  match lookupDeployment p.deployments model_name with
  | some config => config.supports_extended_thinking
  | none => false

/-- A chat message as placed into the `messages` list (azure.py lines 117-120). -/
structure Message where
  role : String
  content : String
deriving Repr, DecidableEq

/-- A value passed through `**kwargs`. -/
inductive KwVal
  | b (v : Bool)
  | i (v : Int)
  | r (v : Rat)
  | s (v : String)
  | sl (v : List String)
deriving Repr, DecidableEq

/-- The `**kwargs` dictionary, in insertion order. -/
abbrev Kwargs := List (String × KwVal)

/-- The `completion_params` dictionary (azure.py lines 122-133): the fixed
fields plus the allow-listed extras in kwargs iteration order. -/
structure CompletionParams where
  model : String
  messages : List Message
  temperature : Rat
  max_tokens : Option Int
  extra : Kwargs
deriving Repr, DecidableEq

/-- The message content of a non-streaming choice. -/
structure ChatMessage where
  content : Option String
deriving Repr, DecidableEq

/-- One choice of a non-streaming completion response. -/
structure AggChoice where
  message : ChatMessage
  finish_reason : Option String
deriving Repr, DecidableEq

/-- Token usage attached to a non-streaming response. -/
structure UsageInfo where
  prompt_tokens : Int
  completion_tokens : Int
  total_tokens : Int
deriving Repr, DecidableEq

/-- A non-streaming ("aggregate") completion response. -/
structure AggResponse where
  choices : List AggChoice
  model : String
  id : String
  created : Int
  usage : Option UsageInfo
deriving Repr, DecidableEq

/-- The delta of a streamed chunk's choice. -/
structure Delta where
  content : Option String
deriving Repr, DecidableEq

/-- One choice of a streamed chunk. -/
structure ChunkChoice where
  delta : Delta
  finish_reason : Option String
deriving Repr, DecidableEq

/-- One streamed chunk (azure.py lines 146-156). -/
structure Chunk where
  choices : List ChunkChoice
  model : Option String
  id : Option String
  created : Option Int
deriving Repr, DecidableEq

/-- What the vendor call returns: a single aggregate result or a chunk
sequence. -/
inductive VendorResult
  | aggregate (r : AggResponse)
  | streamed (chunks : List Chunk)
deriving Repr, DecidableEq

/-- The environment of an invocation: whether the `openai` SDK imports, and
the behaviour of `client.chat.completions.create` for each client and
parameter set. -/
structure Env where
  sdk_available : Bool
  create : Client → CompletionParams → Except String VendorResult

/-- `_get_client` (azure.py lines 60-72).  A raised exception leaves the
provider state unchanged, since the cache insert happens only after a
successful construction; on a cache miss the new client is bound to the
provider's stored credential, endpoint URL and the given api version and is
appended to the cache. -/
def _get_client (env : Env) (p : AzureOpenAIProvider) (api_version : String) :
    Except ProviderError Client × AzureOpenAIProvider :=
  match lookupClient p.clients api_version with
  | some c => (.ok c, p)
  | none =>
      if env.sdk_available then
        let c : Client := ⟨p.api_key, p.endpoint_url, api_version, p.next_obj_id⟩
        (.ok c, { p with clients := p.clients ++ [(api_version, c)],
                         next_obj_id := p.next_obj_id + 1 })
      else
        (.error .DependencyMissing, p)

/-- The temperature constraint variants of the base module. -/
inductive TemperatureConstraint
  | FixedTemperatureConstraint (value : Rat)
  | RangeTemperatureConstraint (min_temp : Rat) (max_temp : Rat) (default_temp : Rat)
deriving Repr, DecidableEq

/-- Modelled from the spec: the `get_default` accessor of the temperature
constraint classes lives in the base module, which is not under src.
Spec section 3: `Fixed(value)` has that single value as its default/only
valid value; `Range(min, max, default)` carries its default. -/
def TemperatureConstraint.get_default : TemperatureConstraint → Rat
  | .FixedTemperatureConstraint v => v
  | .RangeTemperatureConstraint _ _ d => d

/-- `ModelCapabilities` as populated by azure.py lines 84-94. -/
structure ModelCapabilities where
  provider : ProviderType
  model_name : String
  friendly_name : String
  context_window : Int
  supports_extended_thinking : Bool
  supports_system_prompts : Bool
  supports_streaming : Bool
  supports_function_calling : Bool
  temperature_constraint : TemperatureConstraint
deriving Repr, DecidableEq

/-- `get_capabilities` (azure.py lines 74-94). -/
def get_capabilities (p : AzureOpenAIProvider) (model_name : String) :
    Except ProviderError ModelCapabilities :=
  match lookupDeployment p.deployments model_name with
  | none => .error (.UnsupportedModel model_name)
  | some config =>
      let temp_constraint : TemperatureConstraint :=
        match config.fixed_temperature with
        | some t => .FixedTemperatureConstraint t
        | none => .RangeTemperatureConstraint 0 2 (7/10)
      .ok { provider := .azure
            model_name := model_name
            friendly_name := "Azure OpenAI"
            context_window := config.context_window
            supports_extended_thinking := config.supports_extended_thinking
            supports_system_prompts := true
            supports_streaming := config.stream
            supports_function_calling := true
            temperature_constraint := temp_constraint }

/-- The temperature actually used by `generate_content` after the fixed
override (azure.py lines 109-110). -/
def resolvedTemperature (config : AzureDeployment) (temperature : Rat) : Rat :=
  match config.fixed_temperature with
  | some t => t
  | none => temperature

/-- Modelled from the spec: `validate_parameters` is implemented in the base
provider class, which is not under src.  Spec section 4.4 step 3: validate
the resulting temperature against the model's constraint (range check, or
exact-match check for fixed); fail with `InvalidParameter` on violation. -/
def validate_parameters (config : AzureDeployment) (temperature : Rat) :
    Except ProviderError Unit :=
  match config.fixed_temperature with
  | some t => if temperature = t then .ok () else .error .InvalidParameter
  | none => if 0 ≤ temperature ∧ temperature ≤ 2 then .ok () else .error .InvalidParameter

/-- The `messages` list (azure.py lines 117-120).  `if system_prompt:` is
Python truthiness: `None` and the empty string both skip the system
message. -/
def buildMessages (system_prompt : Option String) (prompt : String) : List Message :=
  match system_prompt with
  | some s => if s = "" then [⟨"user", prompt⟩] else [⟨"system", s⟩, ⟨"user", prompt⟩]
  | none => [⟨"user", prompt⟩]

/-- Python `kwargs.setdefault(k, v)`: keep the dictionary unchanged when the
key is present, otherwise append the pair. -/
def kwSetdefault (kwargs : Kwargs) (k : String) (v : KwVal) : Kwargs :=
  if (kwargs.find? (fun q => q.1 == k)).isSome then kwargs else kwargs ++ [(k, v)]

/-- The allow-list of pass-through options (azure.py line 132). -/
def allowedKeys : List String :=
  ["top_p", "frequency_penalty", "presence_penalty", "seed", "stop", "stream"]

/-- The `completion_params` dictionary as built by azure.py lines 122-133:
the deployment identifier, the messages, the (already resolved) temperature,
`max_tokens` only when `max_output_tokens` is truthy, and the allow-listed
kwargs. -/
def buildCompletionParams (config : AzureDeployment) (prompt : String)
    (system_prompt : Option String) (temperature : Rat)
    (max_output_tokens : Option Int) (kwargs : Kwargs) : CompletionParams :=
  { model := config.deployment_name
    messages := buildMessages system_prompt prompt
    temperature := temperature
    max_tokens :=
      match max_output_tokens with
      | some n => if n = 0 then none else some n
      | none => none
    extra := kwargs.filter (fun q => allowedKeys.contains q.1) }

/-- Python truthiness of a kwargs value. -/
def kwTruthy : KwVal → Bool
  | .b v => v
  | .i v => v != 0
  | .r v => v != 0
  | .s v => v != ""
  | .sl v => !v.isEmpty

/-- `kwargs.get("stream", False)` followed by Python truthiness
(azure.py line 139). -/
def kwargsStreamFlag (kwargs : Kwargs) : Bool :=
  match (kwargs.find? (fun q => q.1 == "stream")).map (fun q => q.2) with
  | some v => kwTruthy v
  | none => false

/-- Python truthiness of an optional string. -/
def optStrTruthy : Option String → Bool
  | some s => s != ""
  | none => false

/-- Python truthiness of an optional integer. -/
def optIntTruthy : Option Int → Bool
  | some n => n != 0
  | none => false

/-- The accumulator of the streaming loop (azure.py lines 140-144). -/
structure StreamAcc where
  content : String
  finish_reason : Option String
  model : Option String
  id : Option String
  created : Option Int
deriving Repr, DecidableEq

/-- The initial accumulator values (azure.py lines 140-144). -/
def initialStreamAcc : StreamAcc := ⟨"", none, none, none, none⟩

/-- Line 147-148 of azure.py:
`if chunk.choices and chunk.choices[0].delta.content: content += ...`. -/
def streamStepContent (acc : StreamAcc) (chunk : Chunk) : StreamAcc :=
  match chunk.choices with
  | [] => acc
  | ch :: _ =>
      match ch.delta.content with
      | some s => if s = "" then acc else { acc with content := acc.content ++ s }
      | none => acc

/-- Line 149-150 of azure.py:
`if chunk.choices and chunk.choices[0].finish_reason: finish_reason = ...`. -/
def streamStepFinish (acc : StreamAcc) (chunk : Chunk) : StreamAcc :=
  match chunk.choices with
  | [] => acc
  | ch :: _ =>
      match ch.finish_reason with
      | some s => if s = "" then acc else { acc with finish_reason := some s }
      | none => acc

/-- Lines 151-156 of azure.py: the model, id and created assignments, each
guarded by Python truthiness. -/
def streamStepMeta (acc : StreamAcc) (chunk : Chunk) : StreamAcc :=
  let a1 := if optStrTruthy chunk.model then { acc with model := chunk.model } else acc
  let a2 := if optStrTruthy chunk.id then { a1 with id := chunk.id } else a1
  if optIntTruthy chunk.created then { a2 with created := chunk.created } else a2

/-- One iteration of the streaming loop (azure.py lines 146-156): the five
statements of the loop body in program order. -/
def streamStep (acc : StreamAcc) (chunk : Chunk) : StreamAcc :=
  streamStepMeta (streamStepFinish (streamStepContent acc chunk) chunk) chunk

/-- The metadata dictionary of a `ModelResponse`
(azure.py lines 167-172 and 185-190). -/
structure ResponseMetadata where
  finish_reason : Option String
  model : Option String
  id : Option String
  created : Option Int
deriving Repr, DecidableEq

/-- The provider-agnostic response object. -/
structure ModelResponse where
  content : Option String
  usage : List (String × Int)
  model_name : String
  friendly_name : String
  provider : ProviderType
  metadata : ResponseMetadata
deriving Repr, DecidableEq

/-- Assembly of the streaming `ModelResponse` (azure.py lines 139-173). -/
def streamResponse (model_name : String) (chunks : List Chunk) : ModelResponse :=
  let acc := chunks.foldl streamStep initialStreamAcc
  { content := some acc.content
    usage := []
    model_name := model_name
    friendly_name := "Azure OpenAI"
    provider := .azure
    metadata := ⟨acc.finish_reason, acc.model, acc.id, acc.created⟩ }

/-- Modelled from the spec: `_extract_usage` is implemented in the base
provider class, which is not under src.  Spec sections 3 and 4.4 step 8a:
usage is the dictionary of prompt/completion/total token counts, absent
(empty) when unavailable. -/
def extractUsage : Option UsageInfo → List (String × Int)
  | some u => [("prompt_tokens", u.prompt_tokens),
               ("completion_tokens", u.completion_tokens),
               ("total_tokens", u.total_tokens)]
  | none => []

/-- Assembly of the non-streaming `ModelResponse` (azure.py lines 174-191)
from the first choice of the aggregate response. -/
def nonStreamResponse (model_name : String) (r : AggResponse) (choice : AggChoice) :
    ModelResponse :=
  { content := choice.message.content
    usage := extractUsage r.usage
    model_name := model_name
    friendly_name := "Azure OpenAI"
    provider := .azure
    metadata := ⟨choice.finish_reason, some r.model, some r.id, some r.created⟩ }

/-- `generate_content` (azure.py lines 96-193).  The returned provider state
is the instance state as mutated up to the return or raise.  Exceptions
raised by `client.chat.completions.create`, and the Python runtime errors of
reading a result of the wrong shape (iterating a non-iterable aggregate,
indexing an empty `choices`, reading `choices` off a stream object), occur
inside the `try` block and are wrapped as `ProviderCallFailed` carrying the
logical model name and the cause; everything before line 135 — the
deployment lookup, the temperature validation and the client construction —
is outside the `try` block and raises unwrapped. -/
def generate_content (env : Env) (p : AzureOpenAIProvider)
    (prompt : String) (model_name : String) (system_prompt : Option String)
    (temperature : Rat) (max_output_tokens : Option Int) (kwargs : Kwargs) :
    Except ProviderError ModelResponse × AzureOpenAIProvider :=
  match lookupDeployment p.deployments model_name with
  | none => (.error (.UnsupportedModel model_name), p)
  | some config =>
      let temperature := resolvedTemperature config temperature
      match validate_parameters config temperature with
      | .error e => (.error e, p)
      | .ok _ =>
          let kwargs := kwSetdefault kwargs "stream" (.b config.stream)
          match _get_client env p config.api_version with
          | (.error e, p1) => (.error e, p1)
          | (.ok client, p1) =>
              let params :=
                buildCompletionParams config prompt system_prompt temperature
                  max_output_tokens kwargs
              match env.create client params with
              | .error e => (.error (.ProviderCallFailed model_name e), p1)
              | .ok result =>
                  if kwargsStreamFlag kwargs then
                    match result with
                    | .streamed chunks => (.ok (streamResponse model_name chunks), p1)
                    | .aggregate _ =>
                        (.error (.ProviderCallFailed model_name
                          "TypeError: object is not iterable"), p1)
                  else
                    match result with
                    | .aggregate r =>
                        match r.choices with
                        | [] => (.error (.ProviderCallFailed model_name
                                  "IndexError: list index out of range"), p1)
                        | choice :: _ => (.ok (nonStreamResponse model_name r choice), p1)
                    | .streamed _ =>
                        (.error (.ProviderCallFailed model_name
                          "AttributeError: object has no attribute choices"), p1)

/-! Spec-side definitions for the streaming assembly, written from the
specification's words ("concatenate all non-empty content deltas in arrival
order; record the last non-empty finish reason, model, id, and created value
observed across chunks"), to be compared with the loop of the source. -/

/-- The non-empty content delta a chunk delivers, if any (the delta of the
first choice). -/
def chunkContentDelta (c : Chunk) : Option String :=
  match c.choices with
  | [] => none
  | ch :: _ =>
      match ch.delta.content with
      | some s => if s = "" then none else some s
      | none => none

/-- The non-empty finish reason a chunk delivers, if any. -/
def chunkFinishObs (c : Chunk) : Option String :=
  match c.choices with
  | [] => none
  | ch :: _ =>
      match ch.finish_reason with
      | some s => if s = "" then none else some s
      | none => none

/-- The non-empty model name a chunk delivers, if any. -/
def chunkModelObs (c : Chunk) : Option String :=
  match c.model with
  | some s => if s = "" then none else some s
  | none => none

/-- The non-empty response id a chunk delivers, if any. -/
def chunkIdObs (c : Chunk) : Option String :=
  match c.id with
  | some s => if s = "" then none else some s
  | none => none

/-- The non-empty created timestamp a chunk delivers, if any. -/
def chunkCreatedObs (c : Chunk) : Option Int :=
  match c.created with
  | some n => if n = 0 then none else some n
  | none => none

/-- "The previous value unless a newer one was observed": `a` when `a` is an
observation, else the earlier value `b`. -/
def oOr (a b : Option α) : Option α :=
  match a with
  | some v => some v
  | none => b

/-- Spec-side: the concatenation of all non-empty content deltas in arrival
order. -/
def specStreamContent : List Chunk → String
  | [] => ""
  | c :: cs => (chunkContentDelta c).getD "" ++ specStreamContent cs

/-- Spec-side: the last non-empty value observed across the chunks (`none`
if none observed): the observation of the later chunks if they have one,
else the observation of the first chunk. -/
def lastObserved (f : Chunk → Option α) : List Chunk → Option α
  | [] => none
  | c :: cs => oOr (lastObserved f cs) (f c)

/-- The per-deployment record invariant claimed by the specification
(section 3): non-empty vendor deployment name, positive context window. -/
def deploymentInvariant (d : AzureDeployment) : Prop :=
  d.deployment_name ≠ "" ∧ 0 < d.context_window

/-- Recogniser for the wrapped call-failure error. -/
def isProviderCallFailed : ProviderError → Bool
  | .ProviderCallFailed _ _ => true
  | _ => false

/-! Concrete instances used to evaluate the theorems on closed inputs. -/

/-- A benign environment: the SDK imports and every completion call returns
an empty chunk stream. -/
def defaultEnv : Env := ⟨true, fun _ _ => .ok (.streamed [])⟩

/-- Environment in which the vendor SDK is unavailable, so that client
construction fails. -/
def envNoSdk : Env := ⟨false, fun _ _ => .ok (.streamed [])⟩

/-- Environment whose completion call fails. -/
def envCallFails : Env := ⟨true, fun _ _ => .error "connection refused"⟩

/-- Environment whose completion call returns the aggregate result of the
specification's non-streaming example: one choice with content "ok" and
finish reason "stop", model "gpt", id "1", created 0, usage 1/1/2. -/
def envAggOk : Env :=
  ⟨true, fun _ _ =>
    .ok (.aggregate ⟨[⟨⟨some "ok"⟩, some "stop"⟩], "gpt", "1", 0, some ⟨1, 1, 2⟩⟩)⟩

/-- The chunk sequence of the specification's streaming example: deltas
"He" and "llo" in order, then a final chunk carrying finish reason "stop". -/
def helloChunks : List Chunk :=
  [⟨[⟨⟨some "He"⟩, none⟩], none, none, none⟩,
   ⟨[⟨⟨some "llo"⟩, none⟩], none, none, none⟩,
   ⟨[⟨⟨none⟩, some "stop"⟩], none, none, none⟩]

/-- Environment whose completion call streams `helloChunks`. -/
def envStreamHello : Env := ⟨true, fun _ _ => .ok (.streamed helloChunks)⟩

/-- Provider with one deployment fixing the temperature to 1.0, configured
as in the repository's tests. -/
def pFix : AzureOpenAIProvider :=
  azureInit "k" "https://example.azure.com"
    [("o3", [("deployment_name", .s "o3"), ("api_version", .s "2024-02-15"),
             ("fixed_temperature", .r 1)])]
    "2025-01-01-preview"

/-- Provider with one deployment whose `stream` key disables streaming. -/
def pPlain : AzureOpenAIProvider :=
  azureInit "k" "https://example.azure.com" [("m", [("stream", .b false)])]
    "2025-01-01-preview"

/-- Provider with one all-default deployment (streaming on). -/
def pStream : AzureOpenAIProvider :=
  azureInit "k" "https://example.azure.com" [("m", [])] "2025-01-01-preview"

/-- Provider whose deployment entry sets the `streaming` key to `false` —
the configuration key used by the specification and by the repository's own
tests. -/
def pStreamingFalse : AzureOpenAIProvider :=
  azureInit "k" "https://example.azure.com" [("m", [("streaming", .b false)])]
    "2025-01-01-preview"

/-- Provider built from a configuration supplying an empty vendor deployment
name and a zero context window; `__init__` accepts it without validation. -/
def pBadCfg : AzureOpenAIProvider :=
  azureInit "k" "https://example.azure.com"
    [("m", [("deployment_name", .s ""), ("context_window", .i 0)])]
    "2025-01-01-preview"

theorem oOr_none (a : Option α) : oOr a none = a := by
  cases a <;> rfl

theorem oOr_assoc (a b c : Option α) : oOr (oOr a b) c = oOr a (oOr b c) := by
  cases a <;> cases b <;> rfl

/-- Sanity check for `lastObserved`: it is the last element of the list of
the non-empty observations, in arrival order. -/
theorem lastObserved_eq_getLast? (f : Chunk → Option α) (cs : List Chunk) :
    lastObserved f cs = (cs.filterMap f).getLast? := by
  induction cs with
  | nil => rfl
  | cons c cs ih =>
      rw [List.filterMap_cons]
      cases hc : f c with
      | none =>
          rw [lastObserved, ih, hc, oOr_none]
      | some v =>
          rw [lastObserved, ih, hc, List.getLast?_cons]
          cases hl : (List.filterMap f cs).getLast? <;> rfl

/-- The content/finish-reason statements characterised by the spec-side
observations. -/
theorem textSteps_eq (acc : StreamAcc) (c : Chunk) :
    streamStepFinish (streamStepContent acc c) c
      = { acc with content := acc.content ++ (chunkContentDelta c).getD "",
                   finish_reason := oOr (chunkFinishObs c) acc.finish_reason } := by
  obtain ⟨chs, m, i, cr⟩ := c
  simp only [streamStepContent, streamStepFinish, chunkContentDelta, chunkFinishObs]
  cases chs with
  | nil => simp [oOr, String.append_empty]
  | cons ch rest =>
      obtain ⟨⟨dc⟩, fr⟩ := ch
      cases dc with
      | none =>
          cases fr with
          | none => simp [oOr, String.append_empty]
          | some s =>
              by_cases hs : s = "" <;> simp [hs, oOr, String.append_empty]
      | some t =>
          by_cases ht : t = "" <;>
          · cases fr with
            | none => simp [ht, oOr, String.append_empty]
            | some s =>
                by_cases hs : s = "" <;> simp [ht, hs, oOr, String.append_empty]

/-- The model/id/created statements characterised by the spec-side
observations. -/
theorem streamStepMeta_eq (acc : StreamAcc) (c : Chunk) :
    streamStepMeta acc c
      = { acc with model := oOr (chunkModelObs c) acc.model,
                   id := oOr (chunkIdObs c) acc.id,
                   created := oOr (chunkCreatedObs c) acc.created } := by
  obtain ⟨chs, m, i, cr⟩ := c
  simp only [streamStepMeta, chunkModelObs, chunkIdObs, chunkCreatedObs, optStrTruthy,
    optIntTruthy]
  cases m with
  | none =>
      cases i with
      | none =>
          cases cr with
          | none => simp [oOr]
          | some n => by_cases hn : n = 0 <;> simp [hn, oOr]
      | some si =>
          by_cases hi : si = "" <;>
          · cases cr with
            | none => simp [hi, oOr]
            | some n => by_cases hn : n = 0 <;> simp [hi, hn, oOr]
  | some sm =>
      by_cases hm : sm = "" <;>
      · cases i with
        | none =>
            cases cr with
            | none => simp [hm, oOr]
            | some n => by_cases hn : n = 0 <;> simp [hm, hn, oOr]
        | some si =>
            by_cases hi : si = "" <;>
            · cases cr with
              | none => simp [hm, hi, oOr]
              | some n => by_cases hn : n = 0 <;> simp [hm, hi, hn, oOr]

/-- One loop iteration, fully characterised. -/
theorem streamStep_eq (acc : StreamAcc) (c : Chunk) :
    streamStep acc c
      = { content := acc.content ++ (chunkContentDelta c).getD "",
          finish_reason := oOr (chunkFinishObs c) acc.finish_reason,
          model := oOr (chunkModelObs c) acc.model,
          id := oOr (chunkIdObs c) acc.id,
          created := oOr (chunkCreatedObs c) acc.created } := by
  rw [streamStep, textSteps_eq, streamStepMeta_eq]

/-- The whole streaming loop, characterised by the spec-side definitions:
the accumulated content is the prior content followed by the concatenation
of the non-empty deltas in arrival order, and each metadata field is the
last non-empty observation, falling back to the prior value. -/
theorem foldl_streamStep_eq (cs : List Chunk) : ∀ acc : StreamAcc,
    cs.foldl streamStep acc
      = { content := acc.content ++ specStreamContent cs,
          finish_reason := oOr (lastObserved chunkFinishObs cs) acc.finish_reason,
          model := oOr (lastObserved chunkModelObs cs) acc.model,
          id := oOr (lastObserved chunkIdObs cs) acc.id,
          created := oOr (lastObserved chunkCreatedObs cs) acc.created } := by
  induction cs with
  | nil =>
      intro acc
      simp [specStreamContent, lastObserved, oOr, String.append_empty]
  | cons c cs ih =>
      intro acc
      rw [List.foldl_cons, streamStep_eq, ih]
      simp only [specStreamContent, lastObserved, oOr_assoc, String.append_assoc]

/-- C1: for every configured deployment whose fixed_temperature is set to a
value T and for every caller-supplied temperature t, generate_content issues
the underlying completion call with temperature exactly T: the completion
parameters handed to the call carry temperature T, and the entire outcome
equals the outcome of a call that had supplied T — the caller's t is
discarded unconditionally and is not validated against T. -/
theorem C1_fixed_temperature_override
    (env : Env) (p : AzureOpenAIProvider) (prompt model_name : String)
    (system_prompt : Option String) (t : Rat) (max_output_tokens : Option Int)
    (kwargs : Kwargs) (config : AzureDeployment) (T : Rat)
    (hconfig : lookupDeployment p.deployments model_name = some config)
    (hfixed : config.fixed_temperature = some T) :
    (buildCompletionParams config prompt system_prompt
        (resolvedTemperature config t) max_output_tokens
        (kwSetdefault kwargs "stream" (.b config.stream))).temperature = T
    ∧ generate_content env p prompt model_name system_prompt t max_output_tokens kwargs
        = generate_content env p prompt model_name system_prompt T max_output_tokens kwargs := by
  have hres : ∀ u : Rat, resolvedTemperature config u = T := by
    intro u
    simp [resolvedTemperature, hfixed]
  constructor
  · simp [buildCompletionParams, hres]
  · simp only [generate_content, hconfig, hres]

/-- Witness for C1 at the specification's example: deployment fixing the
temperature to 1.0, caller-supplied temperature 0.2. -/
theorem C1_fixed_temperature_override_witness :
    (buildCompletionParams ⟨"o3", "2024-02-15", true, 200000, false, some 1⟩ "p" none
        (resolvedTemperature ⟨"o3", "2024-02-15", true, 200000, false, some 1⟩ (1/5)) none
        (kwSetdefault [] "stream" (.b true))).temperature = 1
    ∧ generate_content defaultEnv pFix "p" "o3" none (1/5) none []
        = generate_content defaultEnv pFix "p" "o3" none 1 none [] :=
  C1_fixed_temperature_override defaultEnv pFix "p" "o3" none (1/5) none []
    ⟨"o3", "2024-02-15", true, 200000, false, some 1⟩ 1 rfl rfl

/-- C2: for every model name absent from the configured deployment set,
generate_content fails with the unsupported-model error before any client is
constructed: the provider state — in particular the client cache — is
returned unchanged. -/
theorem C2_unsupported_model_fails_fast
    (env : Env) (p : AzureOpenAIProvider) (prompt model_name : String)
    (system_prompt : Option String) (temperature : Rat)
    (max_output_tokens : Option Int) (kwargs : Kwargs)
    (h : lookupDeployment p.deployments model_name = none) :
    generate_content env p prompt model_name system_prompt temperature
        max_output_tokens kwargs
      = (.error (.UnsupportedModel model_name), p)
    ∧ (generate_content env p prompt model_name system_prompt temperature
        max_output_tokens kwargs).2.clients = p.clients := by
  have h1 : generate_content env p prompt model_name system_prompt temperature
      max_output_tokens kwargs = (.error (.UnsupportedModel model_name), p) := by
    simp only [generate_content, h]
  exact ⟨h1, by rw [h1]⟩

/-- Witness for C2: an unconfigured name on a provider whose cache is empty;
the cache remains empty. -/
theorem C2_unsupported_model_fails_fast_witness :
    lookupDeployment pFix.deployments "other" = none
    ∧ generate_content defaultEnv pFix "p" "other" none 1 none []
        = (.error (.UnsupportedModel "other"), pFix)
    ∧ pFix.clients = [] :=
  ⟨rfl,
   (C2_unsupported_model_fails_fast defaultEnv pFix "p" "other" none 1 none [] rfl).1,
   rfl⟩

/-- C7: a cache-miss call of the client lookup constructs the client — bound
to the stored credential, endpoint and the requested API version — and
stores it; an immediately following call with the same API version returns
the identical client with the state unchanged (no second construction), and
a call that hits the cache returns the cached instance unchanged. -/
theorem C7_client_cache_reuse
    (env : Env) (p : AzureOpenAIProvider) (v : String) (c1 : Client)
    (p1 : AzureOpenAIProvider)
    (h : _get_client env p v = (.ok c1, p1)) :
    _get_client env p1 v = (.ok c1, p1)
    ∧ lookupClient p1.clients v = some c1
    ∧ (lookupClient p.clients v = none →
        p1.clients = p.clients ++ [(v, c1)]
        ∧ p1.next_obj_id = p.next_obj_id + 1
        ∧ c1 = ⟨p.api_key, p.endpoint_url, v, p.next_obj_id⟩)
    ∧ (∀ c0, lookupClient p.clients v = some c0 → c1 = c0 ∧ p1 = p) := by
  rw [_get_client] at h
  cases hl : lookupClient p.clients v with
  | some c =>
      rw [hl] at h
      simp only [Prod.mk.injEq, Except.ok.injEq] at h
      obtain ⟨hc, hp⟩ := h
      subst hc
      subst hp
      refine ⟨?_, hl, ?_, ?_⟩
      · rw [_get_client, hl]
      · intro hn
        cases hn
      · intro c0 h0
        injection h0 with h0
        exact ⟨h0, rfl⟩
  | none =>
      rw [hl] at h
      have hf : p.clients.find? (fun q => q.1 == v) = none := by
        unfold lookupClient at hl
        exact Option.map_eq_none'.mp hl
      by_cases hs : env.sdk_available
      · rw [if_pos hs] at h
        simp only [Prod.mk.injEq, Except.ok.injEq] at h
        obtain ⟨hc, hp⟩ := h
        have hlook1 : lookupClient p1.clients v = some c1 := by
          rw [← hp]
          unfold lookupClient
          rw [List.find?_append, hf]
          simp [List.find?, hc]
        refine ⟨?_, hlook1, ?_, ?_⟩
        · rw [_get_client, hlook1]
        · intro _
          refine ⟨?_, ?_, hc.symm⟩
          · rw [← hp, ← hc]
          · rw [← hp]
        · intro c0 h0
          cases h0
      · rw [if_neg hs] at h
        simp only [Prod.mk.injEq] at h
        exact absurd h.1 (by simp)

/-- Witness for C7: a first call from the empty cache constructs and stores
the client; the second call returns the same client without constructing. -/
theorem C7_client_cache_reuse_witness :
    _get_client defaultEnv
        { pStream with clients := [("2025-01-01-preview", ⟨"k", "https://example.azure.com", "2025-01-01-preview", 0⟩)], next_obj_id := 1 }
        "2025-01-01-preview"
      = (.ok ⟨"k", "https://example.azure.com", "2025-01-01-preview", 0⟩,
         { pStream with clients := [("2025-01-01-preview", ⟨"k", "https://example.azure.com", "2025-01-01-preview", 0⟩)], next_obj_id := 1 })
    ∧ lookupClient ({ pStream with clients := [("2025-01-01-preview", ⟨"k", "https://example.azure.com", "2025-01-01-preview", 0⟩)], next_obj_id := 1 } : AzureOpenAIProvider).clients "2025-01-01-preview"
        = some ⟨"k", "https://example.azure.com", "2025-01-01-preview", 0⟩ :=
  by
  have h := C7_client_cache_reuse defaultEnv pStream "2025-01-01-preview"
    ⟨"k", "https://example.azure.com", "2025-01-01-preview", 0⟩
    { pStream with clients := [("2025-01-01-preview", ⟨"k", "https://example.azure.com", "2025-01-01-preview", 0⟩)], next_obj_id := 1 }
    rfl
  exact ⟨h.1, h.2.1⟩

/-- C10: calling generate_content with an empty-string system prompt adds no
system message: the behaviour is identical to passing no system prompt at
all, and the message sequence consists solely of the single user message
carrying the prompt. -/
theorem C10_empty_system_prompt_no_system_message
    (env : Env) (p : AzureOpenAIProvider) (prompt model_name : String)
    (temperature : Rat) (max_output_tokens : Option Int) (kwargs : Kwargs) :
    buildMessages (some "") prompt = [⟨"user", prompt⟩]
    ∧ generate_content env p prompt model_name (some "") temperature
          max_output_tokens kwargs
        = generate_content env p prompt model_name none temperature
          max_output_tokens kwargs := by
  have hm : buildMessages (some "") prompt = buildMessages none prompt := by
    simp [buildMessages]
  constructor
  · simp [buildMessages]
  · have hbp : ∀ (config : AzureDeployment) (temp : Rat) (mot : Option Int) (kw : Kwargs),
        buildCompletionParams config prompt (some "") temp mot kw
          = buildCompletionParams config prompt none temp mot kw := by
      intro config temp mot kw
      simp [buildCompletionParams, hm]
    simp only [generate_content, hbp]

/-- C5: for every configured model name, get_capabilities succeeds and
returns the temperature constraint Fixed(fixed_temperature) when the
deployment specifies a fixed temperature, else Range(0.0, 2.0) with default
0.7; in the fixed case the constraint's default/only valid value equals the
deployment's fixed temperature — for every deployment, hence regardless of
its streaming flag. -/
theorem C5_capabilities_temperature_constraint
    (p : AzureOpenAIProvider) (model_name : String) (config : AzureDeployment)
    (h : lookupDeployment p.deployments model_name = some config) :
    ∃ caps, get_capabilities p model_name = .ok caps
      ∧ caps.temperature_constraint
          = (match config.fixed_temperature with
             | some T => .FixedTemperatureConstraint T
             | none => .RangeTemperatureConstraint 0 2 (7/10))
      ∧ (∀ T, config.fixed_temperature = some T →
          caps.temperature_constraint.get_default = T) := by
  simp only [get_capabilities, h]
  refine ⟨_, rfl, rfl, ?_⟩
  intro T hT
  rw [hT]
  rfl

/-- Witness for C5: deployment fixing the temperature to 1.0; the returned
constraint is Fixed(1.0) with default 1.0. -/
theorem C5_capabilities_temperature_constraint_witness :
    lookupDeployment pFix.deployments "o3"
        = some ⟨"o3", "2024-02-15", true, 200000, false, some 1⟩
    ∧ ∃ caps, get_capabilities pFix "o3" = .ok caps
        ∧ caps.temperature_constraint = .FixedTemperatureConstraint 1
        ∧ caps.temperature_constraint.get_default = 1 := by
  obtain ⟨caps, h1, h2, h3⟩ := C5_capabilities_temperature_constraint pFix "o3"
    ⟨"o3", "2024-02-15", true, 200000, false, some 1⟩ rfl
  exact ⟨rfl, caps, h1, by rw [h2], h3 1 rfl⟩

/-- C6 (failing evaluation): the configuration key the code reads is
`stream` (azure.py line 45), so a deployment entry that sets the `streaming`
key — the key named by the specification's configuration schema and used by
the repository's own tests — to false is silently ignored, and
get_capabilities reports supports_streaming = true (the default) instead of
the configured false. -/
theorem C6_streaming_key_ignored :
    (get_capabilities pStreamingFalse "m").map (fun caps => caps.supports_streaming)
      = .ok true
    ∧ cfgGetBool [("streaming", .b false)] "stream" true = true :=
  ⟨rfl, rfl⟩

/-- C8: for a non-streaming vendor result with exactly one choice having
content "ok" and finish_reason "stop", model "gpt", id "1", created 0,
generate_content returns a ModelResponse with content "ok" and metadata
{finish_reason: "stop", model: "gpt", id: "1", created: 0}. -/
theorem C8_nonstreaming_assembly :
    (generate_content envAggOk pPlain "p" "m" none 1 none []).1.map
        (fun r => (r.content, r.metadata))
      = .ok (some "ok", ⟨some "stop", some "gpt", some "1", some 0⟩) := rfl

/-- C9 fails as stated: provider construction accepts, without validation, a
configuration whose resulting deployment record has an empty vendor
deployment name and a zero context window, violating the claimed
invariant. -/
theorem C9_counterexample :
    lookupDeployment pBadCfg.deployments "m"
      = some ⟨"", "2025-01-01-preview", true, 0, false, none⟩
    ∧ ¬ deploymentInvariant ⟨"", "2025-01-01-preview", true, 0, false, none⟩ :=
  ⟨rfl, by simp [deploymentInvariant]⟩

/-- C9 (amended): construction performs no validation; each record's
deployment_name is the configured value (defaulting to the logical name) and
its context_window the configured value (defaulting to 200000), so whenever
every supplied value — or its default — is non-empty resp. positive, every
record of the constructed provider satisfies the invariant. -/
theorem C9_invariant_holds_for_validated_config
    (api_key endpoint_url default_api_version : String)
    (deployments : List (String × Cfg))
    (hname : ∀ q ∈ deployments, cfgGetStr q.2 "deployment_name" q.1 ≠ "")
    (hcw : ∀ q ∈ deployments, 0 < cfgGetInt q.2 "context_window" 200000) :
    ∀ q ∈ (azureInit api_key endpoint_url deployments default_api_version).deployments,
      deploymentInvariant q.2 := by
  intro q hq
  simp only [azureInit, List.mem_map] at hq
  obtain ⟨a, ha, rfl⟩ := hq
  exact ⟨hname a ha, hcw a ha⟩

/-- Witness for C9 (amended): a record built from a validated configuration
entry — name supplied, context window defaulted — satisfies the invariant. -/
theorem C9_invariant_holds_for_validated_config_witness :
    deploymentInvariant ⟨"o3", "2025-01-01-preview", true, 200000, false, some 1⟩ :=
  C9_invariant_holds_for_validated_config "k" "https://example.azure.com"
    "2025-01-01-preview"
    [("o3", [("deployment_name", CfgVal.s "o3"), ("fixed_temperature", CfgVal.r 1)])]
    (by decide) (by decide)
    ("o3", ⟨"o3", "2025-01-01-preview", true, 200000, false, some 1⟩)
    (by decide)

/-- C3 fails as stated: with the vendor SDK unavailable, client construction
inside generate_content fails, but the error surfaced is the unwrapped
dependency error — not a ProviderCallFailed — because the client is obtained
before the try block begins (azure.py line 115 versus line 135). -/
theorem C3_counterexample :
    (generate_content envNoSdk pStream "p" "m" none 1 none []).1
      = .error .DependencyMissing
    ∧ isProviderCallFailed .DependencyMissing = false :=
  ⟨rfl, rfl⟩

/-- C3 (amended): every exception arising from the completion call itself is
caught and re-raised as a single ProviderCallFailed error that carries the
logical model name and keeps the original exception as its cause, and no
retry is attempted (the call is consulted exactly once); exceptions during
client construction, by contrast, propagate unwrapped. -/
theorem C3_call_failure_wrapped
    (env : Env) (p : AzureOpenAIProvider) (prompt model_name : String)
    (system_prompt : Option String) (temperature : Rat)
    (max_output_tokens : Option Int) (kwargs : Kwargs)
    (config : AzureDeployment) (client : Client) (p1 : AzureOpenAIProvider)
    (e : String)
    (hconfig : lookupDeployment p.deployments model_name = some config)
    (hvalid : validate_parameters config (resolvedTemperature config temperature)
        = .ok ())
    (hclient : _get_client env p config.api_version = (.ok client, p1))
    (hcreate : env.create client
        (buildCompletionParams config prompt system_prompt
          (resolvedTemperature config temperature) max_output_tokens
          (kwSetdefault kwargs "stream" (.b config.stream))) = .error e) :
    generate_content env p prompt model_name system_prompt temperature
        max_output_tokens kwargs
      = (.error (.ProviderCallFailed model_name e), p1) := by
  simp only [generate_content, hconfig, hvalid, hclient, hcreate]

/-- Witness for C3 (amended): a failing completion call surfaces as
ProviderCallFailed carrying the model name and the cause. -/
theorem C3_call_failure_wrapped_witness :
    generate_content envCallFails pStream "p" "m" none 1 none []
      = (.error (.ProviderCallFailed "m" "connection refused"),
         { pStream with
             clients := [("2025-01-01-preview",
               ⟨"k", "https://example.azure.com", "2025-01-01-preview", 0⟩)],
             next_obj_id := 1 }) :=
  C3_call_failure_wrapped envCallFails pStream "p" "m" none 1 none []
    ⟨"m", "2025-01-01-preview", true, 200000, false, none⟩
    ⟨"k", "https://example.azure.com", "2025-01-01-preview", 0⟩
    { pStream with
        clients := [("2025-01-01-preview",
          ⟨"k", "https://example.azure.com", "2025-01-01-preview", 0⟩)],
        next_obj_id := 1 }
    "connection refused" rfl rfl rfl rfl

/-- C4: for every streamed chunk sequence, generate_content in streaming
mode returns a ModelResponse whose content is the concatenation of all
non-empty content deltas in arrival order, whose metadata finish_reason,
model, id and created each equal the last non-empty such value observed
across the chunks (none if none observed), and whose usage is empty. -/
theorem C4_streaming_assembly
    (env : Env) (p : AzureOpenAIProvider) (prompt model_name : String)
    (system_prompt : Option String) (temperature : Rat)
    (max_output_tokens : Option Int) (kwargs : Kwargs)
    (config : AzureDeployment) (client : Client) (p1 : AzureOpenAIProvider)
    (chunks : List Chunk)
    (hconfig : lookupDeployment p.deployments model_name = some config)
    (hvalid : validate_parameters config (resolvedTemperature config temperature)
        = .ok ())
    (hstream : kwargsStreamFlag (kwSetdefault kwargs "stream" (.b config.stream))
        = true)
    (hclient : _get_client env p config.api_version = (.ok client, p1))
    (hcreate : env.create client
        (buildCompletionParams config prompt system_prompt
          (resolvedTemperature config temperature) max_output_tokens
          (kwSetdefault kwargs "stream" (.b config.stream)))
        = .ok (.streamed chunks)) :
    ∃ resp,
      generate_content env p prompt model_name system_prompt temperature
          max_output_tokens kwargs
        = (.ok resp, p1)
      ∧ resp.content = some (specStreamContent chunks)
      ∧ resp.usage = []
      ∧ resp.metadata = ⟨lastObserved chunkFinishObs chunks,
                         lastObserved chunkModelObs chunks,
                         lastObserved chunkIdObs chunks,
                         lastObserved chunkCreatedObs chunks⟩ := by
  have hacc : chunks.foldl streamStep initialStreamAcc
      = { content := specStreamContent chunks,
          finish_reason := lastObserved chunkFinishObs chunks,
          model := lastObserved chunkModelObs chunks,
          id := lastObserved chunkIdObs chunks,
          created := lastObserved chunkCreatedObs chunks } := by
    rw [foldl_streamStep_eq]
    simp [initialStreamAcc, oOr_none, String.empty_append]
  refine ⟨streamResponse model_name chunks, ?_, ?_, rfl, ?_⟩
  · simp only [generate_content, hconfig, hvalid, hclient, hcreate, hstream, if_true]
  · simp [streamResponse, hacc]
  · simp [streamResponse, hacc]

/-- Witness for C4 at the specification's example: deltas "He", "llo" and a
final chunk with finish reason "stop" assemble to content "Hello", finish
reason "stop" and empty usage. -/
theorem C4_streaming_assembly_witness :
    (∃ resp,
      generate_content envStreamHello pStream "p" "m" none 1 none []
        = (.ok resp,
           { pStream with
               clients := [("2025-01-01-preview",
                 ⟨"k", "https://example.azure.com", "2025-01-01-preview", 0⟩)],
               next_obj_id := 1 })
      ∧ resp.content = some (specStreamContent helloChunks)
      ∧ resp.usage = []
      ∧ resp.metadata = ⟨lastObserved chunkFinishObs helloChunks,
                         lastObserved chunkModelObs helloChunks,
                         lastObserved chunkIdObs helloChunks,
                         lastObserved chunkCreatedObs helloChunks⟩)
    ∧ specStreamContent helloChunks = "Hello"
    ∧ lastObserved chunkFinishObs helloChunks = some "stop" :=
  ⟨C4_streaming_assembly envStreamHello pStream "p" "m" none 1 none []
    ⟨"m", "2025-01-01-preview", true, 200000, false, none⟩
    ⟨"k", "https://example.azure.com", "2025-01-01-preview", 0⟩
    { pStream with
        clients := [("2025-01-01-preview",
          ⟨"k", "https://example.azure.com", "2025-01-01-preview", 0⟩)],
        next_obj_id := 1 }
    helloChunks rfl rfl rfl rfl rfl, rfl, rfl⟩

end AzureMCP
